import Mathlib

/-!
Verification of the document ingestion and extraction pipeline of the
legal-doc-assistant repository, a shallow embedding of
src/legal_chatbot/document_processing/processor.py and
src/legal_chatbot/config.py.

Python strings are modelled as `List Char` (a Python string is a sequence
of code points).  External collaborators (PyPDF2 parsing, pdf2image
rasterisation, per-page Tesseract OCR) are modelled by their outcomes:
`Option` is `none` where the Python call raises (or, for Hough line
detection, returns no lines).
-/

set_option maxRecDepth 100000

namespace LegalDoc

/-- Python strings as lists of code points. -/
abbrev Txt := List Char

/-- Coerce a Lean string literal to the `Txt` model. -/
def s2l (s : String) : Txt := s.data

/-- Python `str.isspace` membership for the ASCII whitespace characters that
`str.strip()` and `str.split()` treat as whitespace. -/
def isPyWs (c : Char) : Bool :=
  c == ' ' || c == '\t' || c == '\n' || c == '\r' || c == '\x0b' || c == '\x0c'

/-- Python `str.strip()`: drop leading and trailing whitespace. -/
def pyStrip (l : Txt) : Txt :=
  ((l.dropWhile isPyWs).reverse.dropWhile isPyWs).reverse

/-- Helper for `pySplit`: walk the string accumulating the current word
(reversed). -/
def pySplitGo : Txt → Txt → List Txt
  | [], cur => if cur = [] then [] else [cur.reverse]
  | c :: rest, cur =>
      if isPyWs c then
        (if cur = [] then pySplitGo rest [] else cur.reverse :: pySplitGo rest [])
      else
        pySplitGo rest (c :: cur)

/-- Python `str.split()` with no separator: maximal runs of non-whitespace
characters, leading/trailing/repeated whitespace ignored. -/
def pySplit (l : Txt) : List Txt := pySplitGo l []

/-- Number of non-whitespace characters of a string. -/
def nonWsLen (l : Txt) : Nat := (l.filter (fun c => !isPyWs c)).length

/-- Python `str.lower()` restricted to ASCII letters (file suffixes in this
code base are ASCII). -/
def pyLower (l : Txt) : Txt :=
  l.map (fun c => if 'A' ≤ c ∧ c ≤ 'Z' then Char.ofNat (c.toNat + 32) else c)

/-- Python `sep.join(parts)`. -/
def pyJoin (sep : Txt) : List Txt → Txt
  | [] => []
  | [t] => t
  | t :: t₂ :: ts => t ++ sep ++ pyJoin sep (t₂ :: ts)

/-- `big.startsWith pat` on the `Txt` model. -/
def startsWith : Txt → Txt → Bool
  | _, [] => true
  | [], _ :: _ => false
  | a :: as, b :: bs => a == b && startsWith as bs

/-- Python `pat in big`: substring containment. -/
def containsSub : Txt → Txt → Bool
  | [], pat => startsWith [] pat
  | c :: rest, pat => startsWith (c :: rest) pat || containsSub rest pat

/-- Decimal digits of a page number, as printed by Python string formatting. -/
def natChars (n : Nat) : Txt := (Nat.repr n).data

/-- A run of 60 equals signs: the banner separator line used on both
extraction paths. -/
def eq60 : Txt := List.replicate 60 '='

/-!
Error taxonomy.  In the Python source every error below except
`fileNotFound` is raised as a `ValueError`; we keep the kinds apart (the
messages are the f-strings at the corresponding raise sites and carry no
further structure).
-/

/-- Exceptions `process_document` and its callees can raise. -/
inductive PyErr where
  /-- `FileNotFoundError("Document not found: ...")`. -/
  | fileNotFound : PyErr
  /-- `ValueError("Document exceeds 50MB limit")`. -/
  | sizeLimitExceeded : PyErr
  /-- `ValueError("Unsupported format: ...")`. -/
  | unsupportedFormat : PyErr
  /-- `ValueError("PDF conversion failed: ...")` from
  `extract_text_from_scanned_pdf` when `convert_from_path` raises. -/
  | conversionError : PyErr
  /-- `ValueError("Error processing image: ...")` from
  `extract_text_from_image_file`. -/
  | imageError : PyErr
deriving DecidableEq

/-!
Native PDF extraction (`extract_text_from_native_pdf`, processor.py 195-225).
The PyPDF2 parse outcome is a value of `Option (List Txt)`: `none` when any
exception is raised inside the `try` block, `some pages` with the per-page
`page.extract_text()` results otherwise.
-/

/-- The banner block prepended to one page's text on the native path:
`f"\n⁼⁼⁼\nPAGE n\n⁼⁼⁼\n\n"` followed by the page text (processor.py 213). -/
def mkNativePart (n : Nat) (t : Txt) : Txt :=
  s2l "\n" ++ eq60 ++ s2l "\nPAGE " ++ natChars n ++ s2l "\n" ++ eq60 ++ s2l "\n\n" ++ t

/-- The `(page index, page text)` pairs retained by the native-path loop:
pages are numbered from `n` (the source enumerates from 1) and a page is kept
only when `page_text and page_text.strip()` is truthy (processor.py 210-213). -/
def nativeEntries (n : Nat) : List Txt → List (Nat × Txt)
  | [] => []
  | t :: ts =>
      if t ≠ [] ∧ pyStrip t ≠ [] then (n, t) :: nativeEntries (n + 1) ts
      else nativeEntries (n + 1) ts

/-- The formatted `text_parts` list built by the native-path loop. -/
def nativeParts (n : Nat) (pages : List Txt) : List Txt :=
  (nativeEntries n pages).map (fun p => mkNativePart p.1 p.2)

/-- `full_text = "\n\n".join(text_parts)` (processor.py 215). -/
def nativeFullText (pages : List Txt) : Txt :=
  pyJoin (s2l "\n\n") (nativeParts 1 pages)

/-- `extract_text_from_native_pdf`: returns `(full_text, True)` when the
stripped joined text is non-empty and longer than 100 characters, and
`("", False)` otherwise — also on any exception (`parse = none`)
(processor.py 205-225). -/
def extract_text_from_native_pdf (parse : Option (List Txt)) : Txt × Bool :=
  match parse with
  | none => ([], false)
  | some pages =>
      let fullText := nativeFullText pages
      if pyStrip fullText ≠ [] ∧ 100 < (pyStrip fullText).length then
        (fullText, true)
      else
        ([], false)

/-!
OCR path (`extract_text_from_scanned_pdf`, processor.py 227-267).  The
rasterisation outcome is `Option (List (Option Txt))`: `none` when
`convert_from_path` raises, otherwise one entry per page where the page's
entry is `none` when `extract_text_from_image` raises on that page and
`some t` with the recognised text otherwise.
-/

/-- The text appended to `all_text` for page `i`: on success the banner block
plus the page text, on failure the inline error marker (processor.py 254-263). -/
def scannedSlot (i : Nat) : Option Txt → Txt
  | some t =>
      eq60 ++ s2l "\n" ++ s2l "PAGE " ++ natChars i ++ s2l "\n" ++ eq60 ++ s2l "\n\n"
        ++ t ++ s2l "\n\n"
  | none => s2l "\n[ERROR: Could not process page " ++ natChars i ++ s2l "]\n\n"

/-- The per-page result sequence of the OCR loop, pages numbered from `n`
(the source enumerates from 1): exactly one `(index, slot text)` entry per
page, failures included. -/
def scannedSlotsAux (n : Nat) : List (Option Txt) → List (Nat × Txt)
  | [] => []
  | o :: os => (n, scannedSlot n o) :: scannedSlotsAux (n + 1) os

/-- `''.join(all_text)` for the pages numbered from `n`. -/
def scannedTextFrom (n : Nat) (pages : List (Option Txt)) : Txt :=
  ((scannedSlotsAux n pages).map Prod.snd).flatten

/-- The full OCR text of a job whose per-page outcomes are `pages`. -/
def scannedText (pages : List (Option Txt)) : Txt := scannedTextFrom 1 pages

/-- `extract_text_from_scanned_pdf`: raises `ValueError` when rasterisation
fails, otherwise assembles the per-page slots (processor.py 240-267). -/
def extract_text_from_scanned_pdf (raster : Option (List (Option Txt))) :
    Except PyErr Txt :=
  match raster with
  | none => .error .conversionError
  | some pages => .ok (scannedText pages)

/-- `extract_text_from_pdf` (processor.py 269-287), instrumented: the `Bool`
in the result records whether the OCR path (rasterisation, orientation
detection, recognition) ran. -/
def extract_text_from_pdf_t (parse : Option (List Txt))
    (raster : Option (List (Option Txt))) : Except PyErr (Txt × Bool) :=
  let native := extract_text_from_native_pdf parse
  if native.2 then .ok (native.1, false)
  else (extract_text_from_scanned_pdf raster).map (fun t => (t, true))

/-- `extract_text_from_image_file` (processor.py 289-304): the single-image
OCR outcome is `none` when `Image.open` or `extract_text_from_image` raises,
in which case the function re-raises as `ValueError`. -/
def extract_text_from_image_file (img : Option Txt) : Except PyErr Txt :=
  match img with
  | some t => .ok t
  | none => .error .imageError

/-!
Fallback rotation detection (`_detect_rotation_fallback`, processor.py
70-112).  Line angles are exact rationals in degrees (`np.degrees(theta)` of
each Hough line); the Hough outcome is `none` when `cv2.HoughLines` returns
`None` (no lines) or any step of the fallback raises, in which case the
function returns 0.
-/

/-- Insert into a list sorted in non-decreasing order. -/
def insertSorted (a : ℚ) : List ℚ → List ℚ
  | [] => [a]
  | b :: bs => if a ≤ b then a :: b :: bs else b :: insertSorted a bs

/-- Sort in non-decreasing order (the sort inside `np.median`). -/
def sortQ : List ℚ → List ℚ
  | [] => []
  | a :: as => insertSorted a (sortQ as)

/-- `np.median`: middle element of the sorted list for odd length, mean of the
two middle elements for even length.  (Only ever applied to non-empty lists in
the source; the `getD` default is irrelevant there.) -/
def npMedian (l : List ℚ) : ℚ :=
  let s := sortQ l
  if l.length % 2 = 1 then s.getD (l.length / 2) 0
  else (s.getD (l.length / 2 - 1) 0 + s.getD (l.length / 2) 0) / 2

/-- `_detect_rotation_fallback` on the angles (in degrees) of the detected
lines: median of the top-50 line angles, binned to 90 / 0 / 270; no lines
(or a fallback failure) yields 0 (processor.py 90-112). -/
def detect_rotation_fallback (lines : Option (List ℚ)) : ℤ :=
  match lines with
  | none => 0
  | some ls =>
      let avgAngle := npMedian (ls.take 50)
      if 45 ≤ avgAngle ∧ avgAngle < 135 then 90
      else if (135 ≤ avgAngle ∧ avgAngle < 180) ∨ (0 ≤ avgAngle ∧ avgAngle < 45) then 0
      else 270

/-!
`process_document` (processor.py 308-350) and the size limit
(`Config.MAX_DOCUMENT_SIZE_MB = 50`, config.py 26).
-/

/-- `Config.MAX_DOCUMENT_SIZE_MB` (config.py 26). -/
def maxDocumentSizeMB : Nat := 50

/-- `Config.DEFAULT_DPI` (config.py 27). -/
def defaultDPI : Nat := 300

/-- The stat-level facts `process_document` reads about the file before
dispatching on its type. -/
structure FileInfo where
  /-- `path.name`. -/
  name : Txt
  /-- `path.suffix` before the `.lower()` call. -/
  suffixRaw : Txt
  /-- `path.stat().st_size` in bytes. -/
  sizeBytes : Nat
  /-- `path.exists()`. -/
  fileExists : Bool
deriving DecidableEq

/-- Round half to even at the integers (Python `round` on an exactly
represented value). -/
def roundHalfEven (q : ℚ) : ℤ :=
  let f := ⌊q⌋
  let r := q - (f : ℚ)
  if r < 1 / 2 then f
  else if 1 / 2 < r then f + 1
  else if f % 2 = 0 then f else f + 1

/-- Python `round(x, 2)`. -/
def pyRound2 (q : ℚ) : ℚ := (roundHalfEven (q * 100) : ℚ) / 100

/-- The metadata dictionary of `process_document` (processor.py 339-346).
`dpi_used` is `some dpi` where the source stores `self.dpi` and `none` where
it stores the string `N/A`. -/
structure Metadata where
  filename : Txt
  file_type : Txt
  size_mb : ℚ
  char_count : Nat
  word_count : Nat
  dpi_used : Option Nat
deriving DecidableEq

/-- Build the metadata dictionary from the final assembled text
(processor.py 339-346). -/
def mkMetadata (f : FileInfo) (suffix : Txt) (text : Txt) (dpi : Nat) : Metadata :=
  { filename := f.name
    file_type := suffix
    size_mb := pyRound2 ((f.sizeBytes : ℚ) / (1024 * 1024))
    char_count := text.length
    word_count := (pySplit text).length
    dpi_used := if suffix = s2l ".pdf" then some dpi else none }

/-- The raster-image suffixes accepted at processor.py 334. -/
def imageSuffixes : List Txt :=
  [s2l ".png", s2l ".jpg", s2l ".jpeg", s2l ".tiff", s2l ".bmp"]

/-- `process_document` (processor.py 308-350), instrumented: the trailing
`Bool` records whether rasterisation (the OCR fallback of the PDF path)
occurred.  The size test `size_mb > MAX_DOCUMENT_SIZE_MB`, with
`size_mb = st_size / (1024 * 1024)` computed in double precision, is exact
for every real file size (division by the power of two 2²⁰ never rounds
below 2⁵³ bytes), so it is embedded as the equivalent integer comparison
`maxDocumentSizeMB * 1024 * 1024 < sizeBytes`. -/
def process_document_t (dpi : Nat) (f : FileInfo) (parse : Option (List Txt))
    (raster : Option (List (Option Txt))) (img : Option Txt) :
    Except PyErr (Txt × Metadata × Bool) :=
  if f.fileExists = false then .error .fileNotFound
  else if maxDocumentSizeMB * 1024 * 1024 < f.sizeBytes then .error .sizeLimitExceeded
  else
    let suffix := pyLower f.suffixRaw
    if suffix = s2l ".pdf" then
      (extract_text_from_pdf_t parse raster).map
        (fun p => (p.1, mkMetadata f suffix p.1 dpi, p.2))
    else if suffix ∈ imageSuffixes then
      (extract_text_from_image_file img).map
        (fun t => (t, mkMetadata f suffix t dpi, false))
    else .error .unsupportedFormat

/-- `process_document` as the caller sees it: the `(text, metadata)` pair,
the instrumentation dropped. -/
def process_document (dpi : Nat) (f : FileInfo) (parse : Option (List Txt))
    (raster : Option (List (Option Txt))) (img : Option Txt) :
    Except PyErr (Txt × Metadata) :=
  (process_document_t dpi f parse raster img).map (fun r => (r.1, r.2.1))

/-- The rotation mapping exactly as §4.2 of the spec words it, for the
refinement comparison with `detect_rotation_fallback`. -/
def specAngleMap (θ : ℚ) : ℤ :=
  if 45 ≤ θ ∧ θ < 135 then 90
  else if (135 ≤ θ ∧ θ < 180) ∨ (0 ≤ θ ∧ θ < 45) then 0
  else 270

/-! ### Helper lemmas -/

theorem nonWsLen_append (a b : Txt) : nonWsLen (a ++ b) = nonWsLen a + nonWsLen b := by
  simp [nonWsLen, List.filter_append]

theorem filter_nonWs_dropWhile (l : Txt) :
    (l.dropWhile isPyWs).filter (fun c => !isPyWs c) = l.filter (fun c => !isPyWs c) := by
  induction l with
  | nil => rfl
  | cons c t ih =>
      by_cases hc : isPyWs c = true
      · simp [List.dropWhile_cons, List.filter_cons, hc, ih]
      · simp at hc
        simp [List.dropWhile_cons, List.filter_cons, hc]

theorem nonWsLen_reverse (l : Txt) : nonWsLen l.reverse = nonWsLen l := by
  simp [nonWsLen, List.filter_reverse]

theorem nonWsLen_pyStrip (l : Txt) : nonWsLen (pyStrip l) = nonWsLen l := by
  unfold pyStrip
  rw [nonWsLen_reverse]
  unfold nonWsLen
  rw [filter_nonWs_dropWhile]
  show nonWsLen (l.dropWhile isPyWs).reverse = nonWsLen l
  rw [nonWsLen_reverse]
  unfold nonWsLen
  rw [filter_nonWs_dropWhile]

theorem nonWsLen_le_length (l : Txt) : nonWsLen l ≤ l.length :=
  List.length_filter_le _ l

theorem nonWsLen_le_length_pyStrip (l : Txt) : nonWsLen l ≤ (pyStrip l).length := by
  have h := nonWsLen_le_length (pyStrip l)
  rw [nonWsLen_pyStrip] at h
  exact h

theorem pyJoin_head_le (sep p : Txt) (ps : List Txt) :
    nonWsLen p ≤ nonWsLen (pyJoin sep (p :: ps)) := by
  cases ps with
  | nil => simp [pyJoin]
  | cons q qs => simp [pyJoin, nonWsLen_append]

theorem nonWsLen_mkNativePart (n : Nat) (t : Txt) : 120 ≤ nonWsLen (mkNativePart n t) := by
  unfold mkNativePart
  simp only [nonWsLen_append]
  have h60 : nonWsLen eq60 = 60 := by decide
  omega

theorem nativeFullText_nonempty_bound (pages : List Txt)
    (h : nativeFullText pages ≠ []) : 120 ≤ nonWsLen (nativeFullText pages) := by
  unfold nativeFullText at *
  cases he : nativeEntries 1 pages with
  | nil => simp [nativeParts, he, pyJoin] at h
  | cons e es =>
      have hp : nativeParts 1 pages = mkNativePart e.1 e.2 :: es.map (fun p => mkNativePart p.1 p.2) := by
        simp [nativeParts, he]
      rw [hp]
      calc 120 ≤ nonWsLen (mkNativePart e.1 e.2) := nonWsLen_mkNativePart e.1 e.2
        _ ≤ _ := pyJoin_head_le _ _ _

/-! ### Claims -/

/-- C10: `extract_text_from_native_pdf` never raises: any exception inside
its `try` block (parse outcome `none`) yields `("", False)`, and
`extract_text_from_pdf` then proceeds to the OCR fallback (running OCR when
rasterisation succeeds, and failing only with the rasteriser's own
`ConversionError` when it does not) rather than failing at the native
attempt. -/
theorem native_pdf_exception_yields_ocr_fallback :
    extract_text_from_native_pdf none = ([], false)
    ∧ (∀ pages, extract_text_from_pdf_t none (some pages) = .ok (scannedText pages, true))
    ∧ extract_text_from_pdf_t none none = .error .conversionError := by
  refine ⟨rfl, fun pages => rfl, rfl⟩

/-- C2: when native extraction reports success, `extract_text_from_pdf`
returns the native text and the OCR path is not invoked (instrumentation
flag `false`); conversely whenever the OCR path did run, the native success
flag was `false`. -/
theorem native_success_skips_ocr (parse : Option (List Txt))
    (raster : Option (List (Option Txt)))
    (h : (extract_text_from_native_pdf parse).2 = true) :
    extract_text_from_pdf_t parse raster
      = .ok ((extract_text_from_native_pdf parse).1, false)
    ∧ ∀ (p : Option (List Txt)) (r : Option (List (Option Txt))) (t : Txt),
        extract_text_from_pdf_t p r = .ok (t, true) →
        (extract_text_from_native_pdf p).2 = false := by
  constructor
  · simp [extract_text_from_pdf_t, h]
  · intro p r t hok
    by_cases hb : (extract_text_from_native_pdf p).2 = true
    · simp [extract_text_from_pdf_t, hb] at hok
    · simpa using hb

/-- Witness for C2 at a one-page PDF whose embedded text layer is accepted. -/
theorem native_success_skips_ocr_witness :
    extract_text_from_pdf_t (some [s2l "hello"]) none
      = .ok ((extract_text_from_native_pdf (some [s2l "hello"])).1, false) :=
  (native_success_skips_ocr (some [s2l "hello"]) none (by decide)).1

/-- C6: the fallback rotation detector medians the angles of the top 50
lines and bins the median exactly as the spec maps it (45–135 to 90, the
asymmetric 0 band, otherwise 270); no detected lines yields 0; a median
angle of 92 degrees yields 90. -/
theorem rotation_fallback_mapping (ls : List ℚ) (hmed : npMedian (ls.take 50) = 92) :
    (∀ angles : List ℚ,
        detect_rotation_fallback (some angles) = specAngleMap (npMedian (angles.take 50)))
    ∧ detect_rotation_fallback none = 0
    ∧ detect_rotation_fallback (some ls) = 90 := by
  have hmap : ∀ angles : List ℚ,
      detect_rotation_fallback (some angles) = specAngleMap (npMedian (angles.take 50)) := by
    intro angles
    rfl
  refine ⟨hmap, rfl, ?_⟩
  rw [hmap ls, hmed]
  norm_num [specAngleMap]

/-- Witness for C6 at a single detected line of angle 92 degrees. -/
theorem rotation_fallback_mapping_witness :
    detect_rotation_fallback (some [92]) = 90 :=
  (rotation_fallback_mapping [92] (by decide)).2.2

/-- C4: native PDF extraction declares success exactly when the
non-whitespace length of the joined per-page text exceeds 100 characters
(the source tests the length of the stripped joined text, but on every
output of the page loop the two criteria agree, each page part carrying two
60-character banner lines); otherwise the success flag is `false`. -/
theorem native_success_iff_nonws (pages : List Txt) :
    (extract_text_from_native_pdf (some pages)).2 = true
      ↔ 100 < nonWsLen (nativeFullText pages) := by
  unfold extract_text_from_native_pdf
  constructor
  · intro h
    by_cases hc : pyStrip (nativeFullText pages) ≠ []
        ∧ 100 < (pyStrip (nativeFullText pages)).length
    · have hne : nativeFullText pages ≠ [] := by
        intro h0
        exact hc.1 (by simp [h0, pyStrip])
      have := nativeFullText_nonempty_bound pages hne
      omega
    · simp only [hc, if_false] at h
      exact absurd h (by simp)
  · intro h
    have h1 : 100 < (pyStrip (nativeFullText pages)).length :=
      lt_of_lt_of_le h (nonWsLen_le_length_pyStrip _)
    have h2 : pyStrip (nativeFullText pages) ≠ [] := by
      intro h0
      rw [h0] at h1
      simp at h1
    simp [h2, h1]

/-- The PDF path can only fail with the rasteriser's `ConversionError`. -/
theorem pdf_t_error_conversion (parse : Option (List Txt))
    (raster : Option (List (Option Txt))) (e : PyErr)
    (h : extract_text_from_pdf_t parse raster = .error e) : e = .conversionError := by
  unfold extract_text_from_pdf_t at h
  by_cases hb : (extract_text_from_native_pdf parse).2 = true
  · simp [hb] at h
  · simp only [Bool.not_eq_true] at hb
    cases raster with
    | none =>
        simp [hb, extract_text_from_scanned_pdf, Except.map] at h
        exact h.symm
    | some pages => simp [hb, extract_text_from_scanned_pdf, Except.map] at h

/-- C1: whenever `process_document` completes, the returned metadata's
`char_count` is the length of the returned text and `word_count` is the
number of whitespace-delimited tokens of the returned text — both recounted
here independently from the final assembled text. -/
theorem process_document_counts (dpi : Nat) (f : FileInfo)
    (parse : Option (List Txt)) (raster : Option (List (Option Txt)))
    (img : Option Txt) (text : Txt) (md : Metadata)
    (h : process_document dpi f parse raster img = .ok (text, md)) :
    md.char_count = text.length ∧ md.word_count = (pySplit text).length := by
  unfold process_document process_document_t at h
  by_cases hex : f.fileExists = false
  · simp [hex, Except.map] at h
  · simp only [hex, if_false] at h
    by_cases hsz : maxDocumentSizeMB * 1024 * 1024 < f.sizeBytes
    · simp [hsz, Except.map] at h
    · simp only [hsz, if_false] at h
      by_cases hpdf : pyLower f.suffixRaw = s2l ".pdf"
      · simp only [hpdf, if_true] at h
        cases hres : extract_text_from_pdf_t parse raster with
        | error e => simp [hres, Except.map] at h
        | ok p =>
            simp [hres, Except.map] at h
            obtain ⟨ht, hm⟩ := h
            subst ht
            rw [← hm]
            exact ⟨rfl, rfl⟩
      · simp only [hpdf, if_false] at h
        by_cases himg : pyLower f.suffixRaw ∈ imageSuffixes
        · simp only [himg, if_true] at h
          cases img with
          | none => simp [extract_text_from_image_file, Except.map] at h
          | some t =>
              simp [extract_text_from_image_file, Except.map] at h
              obtain ⟨ht, hm⟩ := h
              subst ht
              rw [← hm]
              exact ⟨rfl, rfl⟩
        · simp [himg, Except.map] at h

/-- Witness for C1 at a one-page native-text PDF. -/
theorem process_document_counts_witness :
    (mkMetadata ⟨s2l "a.pdf", s2l ".pdf", 1048576, true⟩ (pyLower (s2l ".pdf"))
        (nativeFullText [s2l "hello"]) 300).char_count
      = (nativeFullText [s2l "hello"]).length
    ∧ (mkMetadata ⟨s2l "a.pdf", s2l ".pdf", 1048576, true⟩ (pyLower (s2l ".pdf"))
        (nativeFullText [s2l "hello"]) 300).word_count
      = (pySplit (nativeFullText [s2l "hello"])).length :=
  process_document_counts 300 ⟨s2l "a.pdf", s2l ".pdf", 1048576, true⟩
    (some [s2l "hello"]) none none (nativeFullText [s2l "hello"]) _ (by rfl)

/-- C5: a file of exactly the configured maximum size (50 MB) is not
rejected with the size-limit error, while any strictly larger file is — and
the oversized rejection is independent of every extraction outcome
(`parse`, `raster`, `img` are arbitrary), so it happens before any decode or
extraction work. -/
theorem size_limit_boundary (dpi : Nat) (f : FileInfo)
    (parse : Option (List Txt)) (raster : Option (List (Option Txt)))
    (img : Option Txt) (hex : f.fileExists = true) :
    (f.sizeBytes = maxDocumentSizeMB * 1024 * 1024 →
        process_document dpi f parse raster img ≠ .error .sizeLimitExceeded)
    ∧ (maxDocumentSizeMB * 1024 * 1024 < f.sizeBytes →
        process_document dpi f parse raster img = .error .sizeLimitExceeded) := by
  constructor
  · intro hsz h
    unfold process_document process_document_t at h
    simp only [hex] at h
    have hnot : ¬ maxDocumentSizeMB * 1024 * 1024 < f.sizeBytes := by omega
    simp only [hnot, if_false, if_true, Bool.true_eq_false] at h
    by_cases hpdf : pyLower f.suffixRaw = s2l ".pdf"
    · simp only [hpdf, if_true] at h
      cases hres : extract_text_from_pdf_t parse raster with
      | error e =>
          have := pdf_t_error_conversion parse raster e hres
          subst this
          simp [hres, Except.map] at h
      | ok p => simp [hres, Except.map] at h
    · simp only [hpdf, if_false] at h
      by_cases himg : pyLower f.suffixRaw ∈ imageSuffixes
      · simp only [himg, if_true] at h
        cases img with
        | none => simp [extract_text_from_image_file, Except.map] at h
        | some t => simp [extract_text_from_image_file, Except.map] at h
      · simp [himg, Except.map] at h
  · intro hsz
    unfold process_document process_document_t
    simp [hex, hsz, Except.map]

/-- Witness for C5: 52428800 bytes is accepted past the size check,
52428801 bytes is rejected with the size-limit error. -/
theorem size_limit_boundary_witness :
    (process_document 300 ⟨s2l "a.pdf", s2l ".pdf", 52428800, true⟩
        (some [s2l "hello"]) none none ≠ .error .sizeLimitExceeded)
    ∧ process_document 300 ⟨s2l "b.pdf", s2l ".pdf", 52428801, true⟩
        (some [s2l "hello"]) none none = .error .sizeLimitExceeded :=
  ⟨(size_limit_boundary 300 ⟨s2l "a.pdf", s2l ".pdf", 52428800, true⟩
      (some [s2l "hello"]) none none rfl).1 (by norm_num [maxDocumentSizeMB]),
   (size_limit_boundary 300 ⟨s2l "b.pdf", s2l ".pdf", 52428801, true⟩
      (some [s2l "hello"]) none none rfl).2 (by norm_num [maxDocumentSizeMB])⟩

/-- C9 counterexample: a PDF whose native text layer is accepted never
rasterises (instrumentation flag `false`), yet its metadata carries
`dpi_used = 300` rather than the not-applicable marker. -/
theorem dpi_used_without_raster_cex :
    (process_document_t 300 ⟨s2l "a.pdf", s2l ".pdf", 1048576, true⟩
        (some [s2l "hello"]) none none).map (fun r => (r.2.2, r.2.1.dpi_used))
      = Except.ok (false, some 300) := by rfl

/-- C9 amended: `dpi_used` carries the configured DPI exactly when the file
suffix is `.pdf` — whether or not rasterisation occurred during the job —
and is marked not-applicable for raster-image inputs. -/
theorem dpi_used_iff_pdf (dpi : Nat) (f : FileInfo) (parse : Option (List Txt))
    (raster : Option (List (Option Txt))) (img : Option Txt) (text : Txt)
    (md : Metadata) (r : Bool)
    (h : process_document_t dpi f parse raster img = .ok (text, md, r)) :
    md.dpi_used = if pyLower f.suffixRaw = s2l ".pdf" then some dpi else none := by
  unfold process_document_t at h
  by_cases hex : f.fileExists = false
  · simp [hex, Except.map] at h
  · simp only [hex, if_false] at h
    by_cases hsz : maxDocumentSizeMB * 1024 * 1024 < f.sizeBytes
    · simp [hsz, Except.map] at h
    · simp only [hsz, if_false] at h
      by_cases hpdf : pyLower f.suffixRaw = s2l ".pdf"
      · simp only [hpdf, if_true] at h ⊢
        cases hres : extract_text_from_pdf_t parse raster with
        | error e => simp [hres, Except.map] at h
        | ok p =>
            simp [hres, Except.map] at h
            rw [← h.2.1]
            simp [mkMetadata, hpdf]
      · simp only [hpdf, if_false] at h ⊢
        by_cases himg : pyLower f.suffixRaw ∈ imageSuffixes
        · simp only [himg, if_true] at h
          cases img with
          | none => simp [extract_text_from_image_file, Except.map] at h
          | some t =>
              simp [extract_text_from_image_file, Except.map] at h
              rw [← h.2.1]
              simp [mkMetadata, hpdf]
        · simp [himg, Except.map] at h

/-- Witness for C9 amended at a raster-image job, whose metadata carries the
not-applicable marker. -/
theorem dpi_used_iff_pdf_witness :
    (mkMetadata ⟨s2l "b.png", s2l ".png", 1000, true⟩ (pyLower (s2l ".png"))
        (s2l "ocr text") 300).dpi_used
      = if pyLower (s2l ".png") = s2l ".pdf" then some 300 else none :=
  dpi_used_iff_pdf 300 ⟨s2l "b.png", s2l ".png", 1000, true⟩ none none
    (some (s2l "ocr text")) (s2l "ocr text") _ false (by rfl)

/-! ### Structure of the OCR page-slot sequence -/

theorem scannedTextFrom_nil (n : Nat) : scannedTextFrom n [] = [] := rfl

theorem scannedTextFrom_cons (n : Nat) (o : Option Txt) (os : List (Option Txt)) :
    scannedTextFrom n (o :: os) = scannedSlot n o ++ scannedTextFrom (n + 1) os := by
  simp [scannedTextFrom, scannedSlotsAux]

/-- Slot decomposition: the OCR text splits at any page position into the
earlier pages' slots, that page's slot, and the later pages' slots, with the
page numbering carried through. -/
theorem scannedTextFrom_decomp (l : List (Option Txt)) (n k : Nat)
    (hk : k < l.length) :
    scannedTextFrom n l =
      scannedTextFrom n (l.take k) ++ scannedSlot (n + k) (l.get ⟨k, hk⟩)
        ++ scannedTextFrom (n + k + 1) (l.drop (k + 1)) := by
  induction l generalizing n k with
  | nil => simp at hk
  | cons o os ih =>
      cases k with
      | zero =>
          simp only [List.take_zero, List.get, List.drop_succ_cons, List.drop_zero,
            Nat.add_zero]
          rw [scannedTextFrom_cons, scannedTextFrom_nil]
          simp
      | succ k =>
          have hk2 : k < os.length := Nat.lt_of_succ_lt_succ hk
          rw [scannedTextFrom_cons, ih (n + 1) k hk2]
          have e1 : n + 1 + k = n + (k + 1) := by omega
          rw [e1]
          simp only [List.take_succ_cons, List.drop_succ_cons, List.get]
          rw [scannedTextFrom_cons]
          simp [List.append_assoc]

theorem startsWith_append_self (t b : Txt) : startsWith (t ++ b) t = true := by
  induction t with
  | nil => cases b <;> simp [startsWith]
  | cons a as ih => simp [startsWith, ih]

theorem containsSub_append_left (x y p : Txt) (h : containsSub y p = true) :
    containsSub (x ++ y) p = true := by
  induction x with
  | nil => simpa using h
  | cons c cs ih => simp [containsSub, ih]

theorem containsSub_self_append (t b : Txt) : containsSub (t ++ b) t = true := by
  have h1 := startsWith_append_self t b
  cases t with
  | nil => cases b <;> simp [containsSub, startsWith]
  | cons a as =>
      simp only [List.cons_append] at h1 ⊢
      simp [containsSub, h1]

/-- A string laid out as `a ++ t ++ b` contains `t`. -/
theorem containsSub_of_middle {big a b t : Txt} (hbig : big = a ++ t ++ b) :
    containsSub big t = true := by
  subst hbig
  rw [List.append_assoc]
  exact containsSub_append_left a (t ++ b) t (containsSub_self_append t b)

/-! ### Index structure of the native and OCR result sequences -/

theorem nativeEntries_bounds (l : List Txt) (n : Nat) :
    ∀ i t, (i, t) ∈ nativeEntries n l → n ≤ i ∧ i < n + l.length := by
  induction l generalizing n with
  | nil => intro i t h; simp [nativeEntries] at h
  | cons x xs ih =>
      intro i t h
      unfold nativeEntries at h
      by_cases hx : x ≠ [] ∧ pyStrip x ≠ []
      · rw [if_pos hx] at h
        rcases List.mem_cons.mp h with h | h
        · simp only [Prod.mk.injEq] at h
          obtain ⟨rfl, rfl⟩ := h
          simp only [List.length_cons]
          omega
        · have := ih (n + 1) i t h
          simp only [List.length_cons]
          omega
      · rw [if_neg hx] at h
        have := ih (n + 1) i t h
        simp only [List.length_cons]
        omega

theorem nativeEntries_sorted (l : List Txt) (n : Nat) :
    ((nativeEntries n l).map Prod.fst).Pairwise (· < ·) := by
  induction l generalizing n with
  | nil => simp [nativeEntries]
  | cons x xs ih =>
      unfold nativeEntries
      by_cases hx : x ≠ [] ∧ pyStrip x ≠ []
      · rw [if_pos hx]
        simp only [List.map_cons]
        refine List.Pairwise.cons ?_ (ih (n + 1))
        intro y hy
        obtain ⟨⟨i, t⟩, hmem, hfst⟩ := List.mem_map.mp hy
        have := (nativeEntries_bounds xs (n + 1) i t hmem).1
        simp only [← hfst]
        omega
      · rw [if_neg hx]
        exact ih (n + 1)

theorem scannedSlots_indices (pages : List (Option Txt)) (n : Nat) :
    (scannedSlotsAux n pages).map Prod.fst = List.range' n pages.length := by
  induction pages generalizing n with
  | nil => rfl
  | cons o os ih =>
      simp only [scannedSlotsAux, List.map_cons, List.length_cons, List.range'_succ]
      rw [ih (n + 1)]

/-- C3 counterexample: in a 3-page OCR job where page 2 fails, the returned
text does not contain the page marker `PAGE 2` — the failed page's banner is
replaced wholly by the error marker — while `PAGE 1` and `PAGE 3` are
present, so the text does not contain page markers `PAGE 1..N`. -/
theorem ocr_failed_page_marker_cex :
    containsSub (scannedText [some (s2l "hello"), none, some (s2l "world")])
        (s2l "PAGE 2") = false
    ∧ containsSub (scannedText [some (s2l "hello"), none, some (s2l "world")])
        (s2l "PAGE 1") = true
    ∧ containsSub (scannedText [some (s2l "hello"), none, some (s2l "world")])
        (s2l "PAGE 3") = true := by decide

/-- C3 amended: when page `k` (0-based here; page number `k+1`) of an N-page
OCR job fails and the others succeed, the job still completes and the
returned text is the slots of pages before `k` in order, then the error
marker `[ERROR: Could not process page k+1]` standing in page `k`'s slot
(its `PAGE k+1` banner omitted), then the slots of the later pages in
order; every successful page's recognized text appears intact in the
returned text. -/
theorem ocr_failed_page_slot (pages : List (Option Txt)) (k : Nat)
    (hk : k < pages.length) (hfail : pages.get ⟨k, hk⟩ = none)
    (hrest : ∀ i (h : i < pages.length), i ≠ k → pages.get ⟨i, h⟩ ≠ none) :
    scannedText pages =
      scannedTextFrom 1 (pages.take k) ++ scannedSlot (k + 1) none
        ++ scannedTextFrom (k + 2) (pages.drop (k + 1))
    ∧ ∀ i (h : i < pages.length) (t : Txt), pages.get ⟨i, h⟩ = some t →
        containsSub (scannedText pages) t = true := by
  constructor
  · have hd := scannedTextFrom_decomp pages 1 k hk
    rw [hfail, Nat.add_comm 1 k] at hd
    exact hd
  · intro i h t hget
    have hd := scannedTextFrom_decomp pages 1 i h
    rw [hget] at hd
    refine containsSub_of_middle
      (a := scannedTextFrom 1 (pages.take i)
        ++ (eq60 ++ s2l "\n" ++ s2l "PAGE " ++ natChars (1 + i) ++ s2l "\n"
          ++ eq60 ++ s2l "\n\n"))
      (b := s2l "\n\n" ++ scannedTextFrom (1 + i + 1) (pages.drop (i + 1))) ?_
    rw [show scannedText pages = scannedTextFrom 1 pages from rfl, hd]
    simp [scannedSlot, List.append_assoc]

/-- Witness for C3 amended at the 3-page job whose second page fails. -/
theorem ocr_failed_page_slot_witness :
    scannedText [some (s2l "hello"), none, some (s2l "world")] =
      scannedTextFrom 1 [some (s2l "hello")] ++ scannedSlot 2 none
        ++ scannedTextFrom 3 [some (s2l "world")] :=
  (ocr_failed_page_slot [some (s2l "hello"), none, some (s2l "world")] 1
    (by decide) (by rfl) (by decide)).1

/-- C7 counterexample: on the native path a 3-page document whose second
page has empty extracted text yields the entry sequence with page indices
`[1, 3]` — page 2 contributes no entry, so the sequence consumed by
assembly has a gap. -/
theorem page_results_gap_cex :
    ((nativeEntries 1 [s2l "ab", s2l "", s2l "cd"]).map Prod.fst = [1, 3])
    ∧ ¬ 2 ∈ (nativeEntries 1 [s2l "ab", s2l "", s2l "cd"]).map Prod.fst := by
  decide

/-- C7 amended: the per-page result sequence consumed by assembly is
strictly ordered by page index; on the OCR path every page index from 1 to
N contributes exactly one entry (failure markers included), while on the
native path the indices are strictly increasing within 1..N but pages whose
extracted text is empty or whitespace-only are omitted, so gaps are
possible there. -/
theorem page_results_ordering (pages : List (Option Txt)) (npages : List Txt)
    (i : Nat) (t : Txt) (hmem : (i, t) ∈ nativeEntries 1 npages) :
    (scannedSlotsAux 1 pages).map Prod.fst = List.range' 1 pages.length
    ∧ ((nativeEntries 1 npages).map Prod.fst).Pairwise (· < ·)
    ∧ 1 ≤ i ∧ i ≤ npages.length := by
  have hb := nativeEntries_bounds npages 1 i t hmem
  exact ⟨scannedSlots_indices pages 1, nativeEntries_sorted npages 1, hb.1, by omega⟩

/-- Witness for C7 amended at a 2-page OCR job and a 1-page native job. -/
theorem page_results_ordering_witness :
    (scannedSlotsAux 1 [some (s2l "a"), none]).map Prod.fst = List.range' 1 2
    ∧ ((nativeEntries 1 [s2l "ab"]).map Prod.fst).Pairwise (· < ·)
    ∧ 1 ≤ 1 ∧ 1 ≤ 1 :=
  page_results_ordering [some (s2l "a"), none] [s2l "ab"] 1 (s2l "ab") (by decide)

/-- C8 counterexample: for a raster-image input whose single page fails
during processing, `process_document` does not return successfully with an
inline marker — it fails with the image-processing `ValueError`. -/
theorem image_page_failure_escalates_cex :
    process_document 300 ⟨s2l "scan.png", s2l ".png", 1000, true⟩ none none none
      = .error .imageError := by rfl

/-- C8 amended: within a scanned-PDF OCR job a page failure is recorded as
an inline error marker in that page's slot and the job still completes
successfully; but for a non-PDF raster image, a failure while processing
the single page is re-raised as `ValueError` (job failure) rather than
being recorded inline. -/
theorem page_error_isolation (pages : List (Option Txt)) (k : Nat)
    (hk : k < pages.length) (hfail : pages.get ⟨k, hk⟩ = none) :
    extract_text_from_scanned_pdf (some pages) = .ok (scannedText pages)
    ∧ containsSub (scannedText pages) (scannedSlot (k + 1) none) = true
    ∧ extract_text_from_image_file none = .error .imageError := by
  refine ⟨rfl, ?_, rfl⟩
  have hd := scannedTextFrom_decomp pages 1 k hk
  rw [hfail, Nat.add_comm 1 k] at hd
  exact containsSub_of_middle hd

/-- Witness for C8 amended at a 1-page OCR job whose page fails. -/
theorem page_error_isolation_witness :
    extract_text_from_scanned_pdf (some [none]) = .ok (scannedText [none])
    ∧ containsSub (scannedText [none]) (scannedSlot 1 none) = true
    ∧ extract_text_from_image_file none = .error .imageError :=
  page_error_isolation [none] 0 (by decide) (by rfl)

end LegalDoc
